import Mathlib

/-!
Verification of the Agentic-Orchestration pipeline against its specification.

The Python sources are shallowly embedded: numeric values computed with
Python floats are modelled as exact rationals (`ℚ`), Python `round(x, 1)`
is modelled as round-half-to-even at one decimal, dictionaries coming from
`json.loads` are modelled by an inductive `Json` value type, and external
services (the LLM, `json.loads` itself, environment variables) appear as
explicit function parameters so that theorems quantify over every possible
behaviour of those services.
-/

namespace AgentFlow

/-- Round-half-to-even to the nearest integer, the tie-breaking rule used by
Python's builtin `round`. -/
def roundHalfEven (q : ℚ) : ℤ :=
  let f : ℤ := ⌊q⌋
  let frac : ℚ := q - f
  if frac < 1/2 then f
  else if 1/2 < frac then f + 1
  else if f % 2 = 0 then f else f + 1

/-- Python `round(x, 1)`: round to one decimal digit, ties to even. -/
def round1 (q : ℚ) : ℚ := (roundHalfEven (q * 10) : ℚ) / 10

/-- Python `max(lo, min(hi, x))` on rationals. -/
def pyClamp (lo hi x : ℚ) : ℚ := max lo (min hi x)

end AgentFlow

namespace AgentFlow

/-! ## `tools/reviewer_tool.py` — `calculate_review_scores`

`calculate_review_scores(completeness_score, security_score, standards_score,
custom_threshold)` computes the weighted overall score with weights
0.4 / 0.4 / 0.2, decides approval by comparing the *unrounded* weighted sum
against the threshold, and returns the overall score rounded to one decimal.
The configured fallback `getattr(config, 'REVIEW_THRESHOLD', 70.0)` is passed
in as `config_threshold`. -/

structure CalcReviewResult where
  success : Bool
  overall_score : ℚ
  threshold : ℚ
  approved : Bool
  deriving Repr, DecidableEq

def calculate_review_scores (completeness_score security_score standards_score : ℚ)
    (custom_threshold : Option ℚ) (config_threshold : ℚ) : CalcReviewResult :=
  let threshold := custom_threshold.getD config_threshold
  -- weights = \x7b'completeness': 0.4, 'security': 0.4, 'standards': 0.2\x7d
  let overall_score :=
    completeness_score * (4/10) + security_score * (4/10) + standards_score * (2/10)
  let approved := decide (threshold ≤ overall_score)
  { success := true
    overall_score := round1 overall_score
    threshold := threshold
    approved := approved }

/-- Specification-side formula from the claim: the weighted sum rounded to one
decimal. -/
def specOverallReviewScore (c s st : ℚ) : ℚ := round1 ((4/10) * c + (4/10) * s + (2/10) * st)

end AgentFlow

namespace AgentFlow

/-! ## `graph/sonarcube_graph.py` — `_node_calculate_score`

The node reads the fetched measures dictionary; by the time the arithmetic of
lines 145-158 runs, every measure has been converted to a number (`int(...)` /
`float(...)` with default `0`, ratings defaulting to `'5'`) and the quality
gate is the `alert_status` string.  We embed exactly that arithmetic. -/

def gateScoreOf (gate : String) : ℚ :=
  if gate = "OK" then 100 else if gate = "WARN" then 70 else 0

def sonarCalculateScore (gate : String) (sqale reliability security : ℚ)
    (bugs vul smells hotspots : ℤ) (coverage dupDensity : ℚ) : ℚ :=
  let gate_score := gateScoreOf gate
  let ratings : List ℚ := [(6 - sqale) * 20, (6 - reliability) * 20, (6 - security) * 20]
  let penalty : ℚ := min 50 ((bugs * 10 + vul * 15 + smells * 2 + hotspots * 5 : ℤ) : ℚ)
  let cov := min 100 coverage
  let dup := min 20 dupDensity
  let base := if ratings.isEmpty then 50 else ratings.sum / ratings.length
  let final := base * (5/10) + gate_score * (3/10) + cov * (2/10) - penalty - dup
  round1 (pyClamp 0 100 final)

/-- Specification-side formula from the claim for the quality-scan score. -/
def specSonarScore (gate : String) (sqale reliability security : ℚ)
    (bugs vul smells hotspots : ℤ) (coverage dupDensity : ℚ) : ℚ :=
  let mean := (((6 - sqale) * 20) + ((6 - reliability) * 20) + ((6 - security) * 20)) / 3
  let gs : ℚ := if gate = "OK" then 100 else if gate = "WARN" then 70 else 0
  let pen : ℚ := min 50 (10 * (bugs : ℚ) + 15 * (vul : ℚ) + 2 * (smells : ℚ) + 5 * (hotspots : ℚ))
  let raw := (5/10) * mean + (3/10) * gs + (2/10) * min 100 coverage - pen - min 20 dupDensity
  round1 (max 0 (min 100 raw))

end AgentFlow

namespace AgentFlow

/-- Claim C9: the quality-scan score computed by `_node_calculate_score` equals
0.5 times the mean of the three converted ratings, plus 0.3 times the gate
score (OK=100, WARN=70, ERROR=0), plus 0.2 times min(100, coverage), minus
min(50, 10·bugs + 15·vulnerabilities + 2·code_smells + 5·security_hotspots),
minus min(20, duplicated_lines_density), clamped to [0,100] and rounded to one
decimal. -/
theorem sonar_score_matches_spec_formula (gate : String)
    (sqale reliability security : ℚ) (bugs vul smells hotspots : ℤ)
    (coverage dupDensity : ℚ) :
    sonarCalculateScore gate sqale reliability security bugs vul smells hotspots
      coverage dupDensity
      = specSonarScore gate sqale reliability security bugs vul smells hotspots
        coverage dupDensity := by
  unfold sonarCalculateScore specSonarScore gateScoreOf pyClamp
  simp only [List.isEmpty, List.sum_cons, List.sum_nil, List.length]
  norm_num
  ring_nf

end AgentFlow

namespace AgentFlow

/-- Claim C1 (counterexample): the claim says `approved` holds iff the
*rounded* overall score reaches the threshold.  At completeness = security =
standards = 69.96 with the configured threshold 70, the returned
`overall_score` is 70.0 (= threshold) yet `approved` is `false`, because the
code compares the unrounded weighted sum 69.96 against the threshold. -/
theorem calculate_review_scores_rounding_counterexample :
    (calculate_review_scores (1749/25) (1749/25) (1749/25) none 70).overall_score = 70 ∧
    (calculate_review_scores (1749/25) (1749/25) (1749/25) none 70).threshold = 70 ∧
    (calculate_review_scores (1749/25) (1749/25) (1749/25) none 70).approved = false := by
  refine ⟨?_, ?_, ?_⟩ <;>
    norm_num [calculate_review_scores, round1, roundHalfEven, Int.floor_eq_iff]

/-- Claim C1 (amended): `calculate_review_scores` returns `overall_score`
equal to the weighted sum 0.4·c + 0.4·s + 0.2·st rounded to one decimal, and
`approved` is true if and only if the *unrounded* weighted sum reaches the
review threshold (`custom_threshold` when given, else the configured
`REVIEW_THRESHOLD`). -/
theorem calculate_review_scores_weight_identity (c s st : ℚ)
    (custom : Option ℚ) (cfg : ℚ) :
    (calculate_review_scores c s st custom cfg).overall_score
        = specOverallReviewScore c s st ∧
    ((calculate_review_scores c s st custom cfg).approved = true ↔
        custom.getD cfg ≤ c * (4/10) + s * (4/10) + st * (2/10)) ∧
    (calculate_review_scores c s st custom cfg).threshold = custom.getD cfg := by
  unfold calculate_review_scores specOverallReviewScore
  refine ⟨?_, ?_, rfl⟩
  · simp only [round1]
    ring_nf
  · simp [decide_eq_true_iff]

end AgentFlow

namespace AgentFlow

/-! ## `core/graph.py` and `core/graph_nodes.py` — the review/rebuild loop

`_should_rebuild` routes the state after the reviewer node; the relevant state
fields are `error`, `review_result.success`, `review_result.approved` and
`rebuild_attempts`.  `node_process_next_issue` resets `rebuild_attempts` to 0
when it picks up a fresh issue, and `node_rebuild_code` increments it.  The
workflow edges `developer_agent → reviewer_agent` and
`rebuilder → reviewer_agent` mean the reviewer is entered once per issue plus
once per rebuilder run. -/

structure ReviewSummary where
  success : Bool
  approved : Bool
  deriving Repr, DecidableEq

/-- `LangGraphWorkflow._should_rebuild` (core/graph.py lines 186-203). -/
def should_rebuild (error : Option String) (review : ReviewSummary)
    (rebuild_attempts MAX_REBUILD_ATTEMPTS : ℕ) : String :=
  if error.isSome then "error"
  else if review.success = false then "error"
  else if review.approved = true then "approve"
  else if MAX_REBUILD_ATTEMPTS ≤ rebuild_attempts then "error"
  else "rebuild"

/-- Effect of `node_process_next_issue` (core/graph_nodes.py lines 93-128) on
`rebuild_attempts`: untouched when an error is pending or the queue is
exhausted, reset to 0 when an issue starts. -/
def node_process_next_issue_attempts (error : Option String)
    (current_issue_index todo_count attempts : ℕ) : ℕ :=
  if error.isSome then attempts
  else if todo_count ≤ current_issue_index then attempts
  else 0

/-- Effect of `node_rebuild_code` (core/graph_nodes.py lines 478-534) on
`rebuild_attempts`: untouched when an error is pending, else incremented. -/
def node_rebuild_code_attempts (error : Option String) (attempts : ℕ) : ℕ :=
  if error.isSome then attempts else attempts + 1

/-- Reachable (rebuild_attempts, reviewer-entry count) pairs for one issue.
The first reviewer entry happens with the counter freshly reset to 0; each
further entry comes from the `rebuild` route followed by a rebuilder run. -/
inductive ReviewerVisits (MAX : ℕ) : ℕ → ℕ → Prop
  | start : ReviewerVisits MAX 0 1
  | rebuild (attempts entries : ℕ) (review : ReviewSummary) :
      ReviewerVisits MAX attempts entries →
      should_rebuild none review attempts MAX = "rebuild" →
      ReviewerVisits MAX (node_rebuild_code_attempts none attempts) (entries + 1)

lemma should_rebuild_eq_rebuild_iff (review : ReviewSummary) (attempts MAX : ℕ) :
    should_rebuild none review attempts MAX = "rebuild" ↔
      review.success = true ∧ review.approved = false ∧ attempts < MAX := by
  unfold should_rebuild
  rcases review with ⟨s, a⟩
  cases s <;> cases a <;> by_cases hle : MAX ≤ attempts <;>
    (simp [hle, Nat.lt_iff_add_one_le]; try omega)

lemma reviewerVisits_invariant (MAX attempts entries : ℕ)
    (h : ReviewerVisits MAX attempts entries) :
    entries = attempts + 1 ∧ attempts ≤ MAX := by
  induction h with
  | start => exact ⟨rfl, Nat.zero_le MAX⟩
  | rebuild a e review _ hroute ih =>
      have hlt : a < MAX := ((should_rebuild_eq_rebuild_iff review a MAX).mp hroute).2.2
      refine ⟨?_, ?_⟩
      · simp [node_rebuild_code_attempts, ih.1]
      · simpa [node_rebuild_code_attempts] using hlt

/-- Claim C2: for every issue the reviewer node is entered at most
`MAX_REBUILD_ATTEMPTS + 1` times; the counter is reset to 0 when an issue
starts, incremented by each rebuilder run, and the post-review routing sends a
non-approved, non-error result to the rebuilder exactly while the counter is
strictly below `MAX_REBUILD_ATTEMPTS`, returning `error` otherwise. -/
theorem rebuild_loop_bounds (MAX : ℕ) :
    (∀ attempts entries, ReviewerVisits MAX attempts entries →
        entries ≤ MAX + 1) ∧
    (∀ idx len att, idx < len →
        node_process_next_issue_attempts none idx len att = 0) ∧
    (∀ att, node_rebuild_code_attempts none att = att + 1) ∧
    (∀ review att, should_rebuild none review att MAX = "rebuild" ↔
        review.success = true ∧ review.approved = false ∧ att < MAX) ∧
    (∀ review att, review.success = true → review.approved = false →
        MAX ≤ att → should_rebuild none review att MAX = "error") := by
  refine ⟨?_, ?_, ?_, ?_, ?_⟩
  · intro attempts entries h
    obtain ⟨he, ha⟩ := reviewerVisits_invariant MAX attempts entries h
    omega
  · intro idx len att h
    simp [node_process_next_issue_attempts, Nat.not_le.mpr h]
  · intro att
    simp [node_rebuild_code_attempts]
  · intro review att
    exact should_rebuild_eq_rebuild_iff review att MAX
  · intro review att hs hap hle
    simp [should_rebuild, hs, hap, hle]

/-- Witness for C2 at `MAX_REBUILD_ATTEMPTS = 2`: one rebuild step from the
initial state yields 2 reviewer entries, which is within the bound 3; the
auxiliary conjuncts are instantiated at concrete inputs. -/
theorem rebuild_loop_bounds_witness :
    (2 : ℕ) ≤ 2 + 1 ∧
    node_process_next_issue_attempts none 0 1 5 = 0 ∧
    node_rebuild_code_attempts none 0 = 1 ∧
    should_rebuild none ⟨true, false⟩ 0 2 = "rebuild" := by
  have hstep : ReviewerVisits 2 1 2 := by
    have h0 : ReviewerVisits 2 0 1 := ReviewerVisits.start
    have h1 := ReviewerVisits.rebuild 0 1 ⟨true, false⟩ h0 (by rfl)
    simpa [node_rebuild_code_attempts] using h1
  refine ⟨(rebuild_loop_bounds 2).1 1 2 hstep,
          (rebuild_loop_bounds 2).2.1 0 1 5 (by decide),
          (rebuild_loop_bounds 2).2.2.1 0,
          ((rebuild_loop_bounds 2).2.2.2.1 ⟨true, false⟩ 0).mpr (by simp)⟩

end AgentFlow

namespace AgentFlow

/-! ## Python string and JSON modelling helpers

Python strings are modelled by Lean `String`; `str.strip()` by `String.trim`
(both remove surrounding whitespace; Python additionally strips some exotic
Unicode spaces, which no claim depends on).  `str.find` / `str.rfind` /
slicing are implemented over the character list.  Values produced by
`json.loads` are modelled by the inductive `Json`; `json.loads` itself and
`float(...)` applied to a string are external behaviours passed in as
function parameters. -/

def braceOpen : Char := Char.ofNat 123

def braceClose : Char := Char.ofNat 125

def pyStrip (s : String) : String :=
  String.mk (((s.toList.dropWhile Char.isWhitespace).reverse.dropWhile
    Char.isWhitespace).reverse)

/-- Python `s.startswith(pre)`. -/
def pyStartsWith (s pre : String) : Bool := pre.toList.isPrefixOf s.toList

/-- All positions at which `pat` occurs in `hay` (as substring start index). -/
def subOccurrences (hay pat : List Char) : List ℕ :=
  (List.range (hay.length + 1)).filter (fun i => pat.isPrefixOf (hay.drop i))

/-- Python `s.find(pat)` returning `none` for -1. -/
def pyFindSub (s pat : String) : Option ℕ := (subOccurrences s.toList pat.toList).head?

/-- Python `s.rfind(pat)` returning `none` for -1. -/
def pyRFindSub (s pat : String) : Option ℕ := (subOccurrences s.toList pat.toList).getLast?

/-- Python `s[i:j]` for non-negative indices. -/
def pySlice (s : String) (i j : ℕ) : String := String.mk ((s.toList.drop i).take (j - i))

/-- Python `c in s` for a single character. -/
def pyContainsChar (s : String) (c : Char) : Bool := s.toList.contains c

/-- Python `s.upper()` (ASCII-faithful). -/
def pyUpper (s : String) : String := s.map Char.toUpper

/-- Values produced by `json.loads`: Python `None`, `bool`, `int`, `float`,
`str`, `list` and `dict` (with string keys). -/
inductive Json where
  | null
  | bool (b : Bool)
  | int (n : ℤ)
  | float (q : ℚ)
  | str (s : String)
  | arr (elems : List Json)
  | obj (fields : List (String × Json))

/-- Python `d.get(key, default)`; JSON objects keep the last duplicate key. -/
def jget (j : Json) (key : String) (default : Json) : Json :=
  match j with
  | .obj fields =>
      match fields.reverse.find? (fun kv => kv.1 == key) with
      | some kv => kv.2
      | none => default
  | _ => default

/-- Python `key in d`. -/
def jHasKey (j : Json) (key : String) : Bool :=
  match j with
  | .obj fields => fields.any (fun kv => kv.1 == key)
  | _ => false

def jIsObj : Json → Bool
  | .obj _ => true
  | _ => false

def jIsArr : Json → Bool
  | .arr _ => true
  | _ => false

/-- Python truthiness of a JSON value. -/
def pyTruthy : Json → Bool
  | .null => false
  | .bool b => b
  | .int n => n ≠ 0
  | .float q => q ≠ 0
  | .str s => s ≠ ""
  | .arr elems => ¬elems.isEmpty
  | .obj fields => ¬fields.isEmpty

/-- Python `float(v)`: numbers and booleans convert, strings convert through
the external parser `s2f`, everything else raises (`none`). -/
def pyFloatOf (s2f : String → Option ℚ) : Json → Option ℚ
  | .int n => some (n : ℚ)
  | .float q => some q
  | .bool b => some (if b then 1 else 0)
  | .str s => s2f s
  | _ => none

/-- Python `str(v)`.  Scalar cases are rendered faithfully; the decimal
rendering of non-integral floats and the bracketed rendering of lists and
dicts are abbreviated (no claim depends on those renderings). -/
def pyStrJson : Json → String
  | .null => "None"
  | .bool true => "True"
  | .bool false => "False"
  | .int n => toString n
  | .float q => toString q
  | .str s => s
  | .arr _ => "[...]"
  | .obj _ => "\x7b...\x7d"

/-- Decimal digit-string to a natural number. -/
def digitsToNat (ds : List Char) : Option ℕ :=
  if ds.isEmpty then none
  else if ds.all Char.isDigit then
    some (ds.foldl (fun acc c => acc * 10 + (c.toNat - 48)) 0)
  else none

/-- Python `int(s)` (sign and digits; Python additionally tolerates
surrounding whitespace and underscores, which no claim depends on). -/
def pyIntOfString (s : String) : Option ℤ :=
  match s.toList with
  | '-' :: rest => (digitsToNat rest).map (fun n => -(n : ℤ))
  | '+' :: rest => (digitsToNat rest).map (fun n => (n : ℤ))
  | ds => (digitsToNat ds).map (fun n => (n : ℤ))

end AgentFlow

namespace AgentFlow

/-! ## `tools/reviewer_tool.py` — `parse_llm_result` (lines 156-206)

The structure of the Python function is kept: strip the content, drop a
Markdown code fence, slice from the first `\x7b` to the last `\x7d`, call
`json.loads` (the parameter `loads`; `none` models `JSONDecodeError`), then
read `score` / `mistakes` / `reasoning` out of the parsed object.  A parse
failure falls through to the fixed 75.0 default; any exception on the parsed
data (`float()` failure, non-dict parse result, pydantic validation of
`mistakes` or `reasoning`) is caught by the outer handler returning 70.0. -/

structure ReviewResult where
  score : ℚ
  mistakes : List String
  reasoning : String

/-- Code-fence removal: `cleaned_content[start:end].strip()` with
`start = cleaned_content.find(chr(10))` and
`end = cleaned_content.rfind(three-backticks)`. -/
def stripCodeFence (cleaned : String) : String :=
  if pyStartsWith cleaned "```" then
    match pyFindSub cleaned "\n", pyRFindSub cleaned "```" with
    | some start, some stop => pyStrip (pySlice cleaned start stop)
    | _, _ => cleaned
  else cleaned

/-- Brace extraction: `cleaned[cleaned.find(chr(123)) : cleaned.rfind(chr(125)) + 1]`
when both braces occur, else no JSON candidate. -/
def extractJsonStr (cleaned : String) : Option String :=
  if pyContainsChar cleaned braceOpen && pyContainsChar cleaned braceClose then
    match pyFindSub cleaned (String.mk [braceOpen]), pyRFindSub cleaned (String.mk [braceClose]) with
    | some js, some je => some (pySlice cleaned js (je + 1))
    | _, _ => none
  else none

/-- The fall-through default of `parse_llm_result`: fixed score 75.0. -/
def parseFailResult (review_type : String) : ReviewResult :=
  { score := 75
    mistakes := ["Could not parse " ++ review_type ++ " review - please check manually"]
    reasoning := "Automated " ++ review_type ++ " review incomplete" }

/-- The outer exception handler of `parse_llm_result`: fixed score 70.0
(the mistake text embeds `str(e)`, whose exact content is irrelevant). -/
def errorResult (review_type : String) : ReviewResult :=
  { score := 70
    mistakes := ["Error in " ++ review_type ++ " review"]
    reasoning := "Review encountered an error" }

/-- Pydantic validation of the `mistakes` field after the non-list wrap:
a list must consist of strings, anything else raises. -/
def coerceMistakes : Json → Option (List String)
  | .arr elems => elems.mapM (fun j => match j with | .str s => some s | _ => none)
  | j => some [pyStrJson j]

/-- The body of the inner `try` once `json.loads` succeeded. -/
def interpretParsed (s2f : String → Option ℚ) (parsed : Json)
    (review_type : String) : ReviewResult :=
  match parsed with
  | .obj _ =>
      match pyFloatOf s2f (jget parsed "score" (.float 75)) with
      | none => errorResult review_type
      | some rawScore =>
          match coerceMistakes (jget parsed "mistakes" (.arr [])) with
          | none => errorResult review_type
          | some mistakes =>
              match jget parsed "reasoning" (.str "") with
              | .str reasoning =>
                  { score := pyClamp 0 100 rawScore
                    mistakes :=
                      if mistakes.isEmpty then [review_type ++ " review completed"]
                      else mistakes
                    reasoning :=
                      if reasoning = "" then review_type ++ " analysis performed"
                      else reasoning }
              | _ => errorResult review_type
  | _ => errorResult review_type

def parse_llm_result (loads : String → Option Json) (s2f : String → Option ℚ)
    (content review_type : String) : ReviewResult :=
  match extractJsonStr (stripCodeFence (pyStrip content)) with
  | none => parseFailResult review_type
  | some json_str =>
      match loads json_str with
      | none => parseFailResult review_type
      | some parsed => interpretParsed s2f parsed review_type

/-- Condition under which no JSON object can be parsed from the content:
either the brace heuristic finds no candidate, or `json.loads` rejects it. -/
def noJsonObject (loads : String → Option Json) (content : String) : Bool :=
  match extractJsonStr (stripCodeFence (pyStrip content)) with
  | none => true
  | some json_str => (loads json_str).isNone

end AgentFlow


namespace AgentFlow

lemma pyClamp_0_100_mem (x : ℚ) : 0 ≤ pyClamp 0 100 x ∧ pyClamp 0 100 x ≤ 100 := by
  unfold pyClamp
  constructor
  · exact le_max_left 0 (min 100 x)
  · exact max_le (by norm_num) (min_le_left 100 x)

lemma errorResult_safe (rt : String) :
    0 ≤ (errorResult rt).score ∧ (errorResult rt).score ≤ 100 ∧
    (errorResult rt).mistakes ≠ [] :=
  ⟨by norm_num [errorResult], by norm_num [errorResult], by simp [errorResult]⟩

lemma parseFailResult_safe (rt : String) :
    0 ≤ (parseFailResult rt).score ∧ (parseFailResult rt).score ≤ 100 ∧
    (parseFailResult rt).mistakes ≠ [] :=
  ⟨by norm_num [parseFailResult], by norm_num [parseFailResult], by simp [parseFailResult]⟩

lemma interpretParsed_safe (s2f : String → Option ℚ) (parsed : Json) (rt : String) :
    0 ≤ (interpretParsed s2f parsed rt).score ∧
    (interpretParsed s2f parsed rt).score ≤ 100 ∧
    (interpretParsed s2f parsed rt).mistakes ≠ [] := by
  unfold interpretParsed
  cases parsed with
  | obj fields =>
      cases hf : pyFloatOf s2f (jget (Json.obj fields) "score" (Json.float 75)) with
      | none => exact errorResult_safe rt
      | some raw =>
          cases hm : coerceMistakes (jget (Json.obj fields) "mistakes" (Json.arr [])) with
          | none => exact errorResult_safe rt
          | some mistakes =>
              cases hr : jget (Json.obj fields) "reasoning" (Json.str "") with
              | str reasoning =>
                  refine ⟨(pyClamp_0_100_mem raw).1, (pyClamp_0_100_mem raw).2, ?_⟩
                  cases mistakes with
                  | nil => simp
                  | cons m ms => simp
              | null => exact errorResult_safe rt
              | bool b => exact errorResult_safe rt
              | int n => exact errorResult_safe rt
              | float q => exact errorResult_safe rt
              | arr elems => exact errorResult_safe rt
              | obj fields2 => exact errorResult_safe rt
  | null => exact errorResult_safe rt
  | bool b => exact errorResult_safe rt
  | int n => exact errorResult_safe rt
  | float q => exact errorResult_safe rt
  | str s => exact errorResult_safe rt
  | arr elems => exact errorResult_safe rt

/-- Claim C10: for every input string and review-type label, `parse_llm_result`
returns a `ReviewResult` without raising: the score always lies in [0,100]
(out-of-range parsed scores are clamped through `pyClamp`), a non-list
`mistakes` field is wrapped into a one-element list, and content from which no
JSON object can be parsed yields the fixed default 75.0 (70.0 on an internal
exception) with a non-empty mistakes list. -/
theorem parse_llm_result_never_fails :
    (∀ loads s2f content rt,
        0 ≤ (parse_llm_result loads s2f content rt).score ∧
        (parse_llm_result loads s2f content rt).score ≤ 100 ∧
        (parse_llm_result loads s2f content rt).mistakes ≠ []) ∧
    (∀ loads s2f content rt, noJsonObject loads content = true →
        parse_llm_result loads s2f content rt = parseFailResult rt) ∧
    (∀ rt, (parseFailResult rt).score = 75 ∧ (errorResult rt).score = 70) ∧
    (∀ s2f parsed rt raw,
        pyFloatOf s2f (jget parsed "score" (Json.float 75)) = some raw →
        interpretParsed s2f parsed rt = errorResult rt ∨
        (interpretParsed s2f parsed rt).score = pyClamp 0 100 raw) ∧
    (∀ s2f parsed rt, jIsObj parsed = true →
        jIsArr (jget parsed "mistakes" (Json.arr [])) = false →
        interpretParsed s2f parsed rt = errorResult rt ∨
        (interpretParsed s2f parsed rt).mistakes
          = [pyStrJson (jget parsed "mistakes" (Json.arr []))]) := by
  refine ⟨?_, ?_, ?_, ?_, ?_⟩
  · intro loads s2f content rt
    rcases hx : extractJsonStr (stripCodeFence (pyStrip content)) with _ | js
    · simpa [parse_llm_result, hx] using parseFailResult_safe rt
    · rcases hl : loads js with _ | parsed
      · simpa [parse_llm_result, hx, hl] using parseFailResult_safe rt
      · simpa [parse_llm_result, hx, hl] using interpretParsed_safe s2f parsed rt
  · intro loads s2f content rt h
    unfold noJsonObject at h
    rcases hx : extractJsonStr (stripCodeFence (pyStrip content)) with _ | js
    · simp [parse_llm_result, hx]
    · rw [hx] at h
      simp only [] at h
      rcases hl : loads js with _ | parsed
      · simp [parse_llm_result, hx, hl]
      · rw [hl] at h
        simp at h
  · intro rt
    exact ⟨rfl, rfl⟩
  · intro s2f parsed rt raw hraw
    unfold interpretParsed
    cases parsed with
    | obj fields =>
        rw [hraw]
        cases hm : coerceMistakes (jget (Json.obj fields) "mistakes" (Json.arr [])) with
        | none => exact Or.inl rfl
        | some mistakes =>
            cases hr : jget (Json.obj fields) "reasoning" (Json.str "") with
            | str reasoning => exact Or.inr rfl
            | null => exact Or.inl rfl
            | bool b => exact Or.inl rfl
            | int n => exact Or.inl rfl
            | float q => exact Or.inl rfl
            | arr elems => exact Or.inl rfl
            | obj fields2 => exact Or.inl rfl
    | null => exact Or.inl rfl
    | bool b => exact Or.inl rfl
    | int n => exact Or.inl rfl
    | float q => exact Or.inl rfl
    | str s => exact Or.inl rfl
    | arr elems => exact Or.inl rfl
  · intro s2f parsed rt hobj hnarr
    unfold interpretParsed
    cases parsed with
    | obj fields =>
        cases hf : pyFloatOf s2f (jget (Json.obj fields) "score" (Json.float 75)) with
        | none => exact Or.inl rfl
        | some raw =>
            have hwrap : coerceMistakes (jget (Json.obj fields) "mistakes" (Json.arr []))
                = some [pyStrJson (jget (Json.obj fields) "mistakes" (Json.arr []))] := by
              cases hmv : jget (Json.obj fields) "mistakes" (Json.arr []) with
              | arr elems => rw [hmv] at hnarr; simp [jIsArr] at hnarr
              | null => simp [coerceMistakes]
              | bool b => simp [coerceMistakes]
              | int n => simp [coerceMistakes]
              | float q => simp [coerceMistakes]
              | str s => simp [coerceMistakes]
              | obj fields2 => simp [coerceMistakes]
            rw [hwrap]
            cases hr : jget (Json.obj fields) "reasoning" (Json.str "") with
            | str reasoning => right; simp
            | null => exact Or.inl rfl
            | bool b => exact Or.inl rfl
            | int n => exact Or.inl rfl
            | float q => exact Or.inl rfl
            | arr elems => exact Or.inl rfl
            | obj fields2 => exact Or.inl rfl
    | null => simp [jIsObj] at hobj
    | bool b => simp [jIsObj] at hobj
    | int n => simp [jIsObj] at hobj
    | float q => simp [jIsObj] at hobj
    | str s => simp [jIsObj] at hobj
    | arr elems => simp [jIsObj] at hobj

/-- Witness for C10 at concrete inputs: plain text with no braces yields the
75.0 default; a parsed score of 120 is clamped through `pyClamp`; a non-list
`mistakes` value (the integer 3) is wrapped into a one-element list. -/
theorem parse_llm_result_never_fails_witness :
    (parse_llm_result (fun _ => none) (fun _ => none) "hello" "completeness"
        = parseFailResult "completeness") ∧
    (interpretParsed (fun _ => none) (Json.obj [("score", Json.int 120)]) "security"
        = errorResult "security" ∨
      (interpretParsed (fun _ => none) (Json.obj [("score", Json.int 120)]) "security").score
        = pyClamp 0 100 120) ∧
    (interpretParsed (fun _ => none) (Json.obj [("mistakes", Json.int 3)]) "standards"
        = errorResult "standards" ∨
      (interpretParsed (fun _ => none) (Json.obj [("mistakes", Json.int 3)]) "standards").mistakes
        = [pyStrJson (jget (Json.obj [("mistakes", Json.int 3)]) "mistakes" (Json.arr []))]) := by
  refine ⟨parse_llm_result_never_fails.2.1 _ _ _ _ (by decide),
          parse_llm_result_never_fails.2.2.2.1 _ _ _ 120 (by decide),
          parse_llm_result_never_fails.2.2.2.2 _ _ _ (by decide) (by decide)⟩

end AgentFlow

namespace AgentFlow

/-! ## `graph/reviewer_graph.py` — `_node_calculate_scores` (lines 261-326)

Each dimension result in the reviewer state is either absent (`None` /
missing key) or a tool result dict carrying `success`, `score` and
`mistakes`.  The node errors out iff no dimension succeeded; otherwise each
dimension contributes `r.get('score', 0.0) if r and r.get('success') else
0.0` to `calculate_review_scores`, and the union of mistakes is collected
from the successful dimensions only. -/

structure AnalysisResult where
  success : Bool
  score : ℚ
  mistakes : List String

structure ReviewAggregate where
  overall_score : ℚ
  approved : Bool
  all_issues : List String

/-- `r and r.get('success', False)` for a dimension result. -/
def validDim : Option AnalysisResult → Bool
  | some res => res.success
  | none => false

/-- `r.get('score', 0.0) if r and r.get('success') else 0.0`. -/
def dimScore : Option AnalysisResult → ℚ
  | some res => if res.success then res.score else 0
  | none => 0

/-- Mistakes contributed to `all_issues`: only successful dimensions extend
the list. -/
def dimMistakes : Option AnalysisResult → List String
  | some res => if res.success then res.mistakes else []
  | none => []

def node_calculate_scores (comp sec std : Option AnalysisResult)
    (custom_threshold : Option ℚ) (config_threshold : ℚ) :
    Except String ReviewAggregate :=
  if (validDim comp || validDim sec || validDim std) = false then
    Except.error "All review analyses failed - cannot calculate scores"
  else
    let r := calculate_review_scores (dimScore comp) (dimScore sec) (dimScore std)
      custom_threshold config_threshold
    Except.ok
      { overall_score := r.overall_score
        approved := r.approved
        all_issues := dimMistakes comp ++ dimMistakes sec ++ dimMistakes std }

end AgentFlow

namespace AgentFlow

/-- Claim C3 (counterexample): with a failed completeness analysis and
successful security and standards analyses both scoring 80, the aggregate
overall score is 48.0 — the failed dimension contributed 0.0.  Had it
contributed any conservative default in [70, 80] as claimed, the overall
would have been at least `round1(0.4·70 + 0.4·80 + 0.2·80) = 76.0`
(the weighted sum is monotone in the completeness score), not 48.0. -/
theorem node_calculate_scores_zero_default_counterexample :
    node_calculate_scores (some ⟨false, 90, []⟩) (some ⟨true, 80, ["s"]⟩)
        (some ⟨true, 80, ["t"]⟩) none 70
      = Except.ok { overall_score := 48, approved := false,
                    all_issues := ["s", "t"] } ∧
    round1 ((4/10) * 70 + (4/10) * 80 + (2/10) * 80) = 76 ∧
    (48 : ℚ) < 76 := by
  refine ⟨?_, ?_, by norm_num⟩
  · unfold node_calculate_scores validDim dimScore dimMistakes calculate_review_scores
    norm_num [round1, roundHalfEven, Int.floor_eq_iff]
  · norm_num [round1, roundHalfEven, Int.floor_eq_iff]

/-- Claim C3 (amended): in the reviewer's score aggregation a failed core
dimension contributes 0.0 to the weighted overall (behaving exactly like an
absent one), the review still produces an aggregate result whenever at least
one core dimension succeeded, and only when all three fail does the node fail
hard with the error "All review analyses failed - cannot calculate scores". -/
theorem node_calculate_scores_fail_soft :
    (∀ comp sec std ct cfg,
        validDim comp = false → validDim sec = false → validDim std = false →
        node_calculate_scores comp sec std ct cfg
          = Except.error "All review analyses failed - cannot calculate scores") ∧
    (∀ comp sec std ct cfg,
        (validDim comp || validDim sec || validDim std) = true →
        node_calculate_scores comp sec std ct cfg
          = Except.ok
              { overall_score := (calculate_review_scores (dimScore comp)
                  (dimScore sec) (dimScore std) ct cfg).overall_score
                approved := (calculate_review_scores (dimScore comp)
                  (dimScore sec) (dimScore std) ct cfg).approved
                all_issues := dimMistakes comp ++ dimMistakes sec ++ dimMistakes std }) ∧
    (∀ s0 m sec std ct cfg,
        node_calculate_scores (some ⟨false, s0, m⟩) sec std ct cfg
          = node_calculate_scores none sec std ct cfg) ∧
    (∀ res : AnalysisResult, res.success = false → dimScore (some res) = 0) := by
  refine ⟨?_, ?_, ?_, ?_⟩
  · intro comp sec std ct cfg h1 h2 h3
    simp [node_calculate_scores, h1, h2, h3]
  · intro comp sec std ct cfg h
    simp [node_calculate_scores, h]
  · intro s0 m sec std ct cfg
    simp [node_calculate_scores, validDim, dimScore, dimMistakes]
  · intro res h
    simp [dimScore, h]

/-- Witness for C3 at concrete inputs: all three dimensions failed yields the
hard error; a single successful dimension yields an aggregate result. -/
theorem node_calculate_scores_fail_soft_witness :
    node_calculate_scores (some ⟨false, 1, []⟩) none (some ⟨false, 2, ["x"]⟩) none 70
      = Except.error "All review analyses failed - cannot calculate scores" ∧
    node_calculate_scores none (some ⟨true, 80, ["s"]⟩) none none 70
      = Except.ok
          { overall_score := (calculate_review_scores (dimScore none)
              (dimScore (some ⟨true, 80, ["s"]⟩)) (dimScore none) none 70).overall_score
            approved := (calculate_review_scores (dimScore none)
              (dimScore (some ⟨true, 80, ["s"]⟩)) (dimScore none) none 70).approved
            all_issues := dimMistakes none ++ dimMistakes (some ⟨true, 80, ["s"]⟩)
              ++ dimMistakes none } := by
  refine ⟨node_calculate_scores_fail_soft.1 _ _ _ _ _ (by rfl) (by rfl) (by rfl),
          node_calculate_scores_fail_soft.2.1 _ _ _ _ _ (by rfl)⟩

end AgentFlow

namespace AgentFlow

/-! ## `graph/planner_graph.py` and `core/hitl.py` — the HITL gate

`_check_overall_score` routes `set_approved_subtasks → END` ("proceed") when
the overall subtask score reaches `GOT_SCORE_THRESHOLD`, else to
`hitl_validation`.  `_hitl_validation_node` reads a console answer with a
bounded wait of `HITL_TIMEOUT_SECONDS` (default 30); the human response is
modelled as `Option String`, with `none` for a timeout (the input thread
still alive after `join`); an EOF on stdin enqueues the literal "Y" response.
The outer graph's `hitl` node (`core/hitl.py`) and routing
(`_route_human_decision`, `hitl → project_creator → assembler_agent`) are
embedded alongside. -/

structure PlannerHitlState (α : Type) where
  approved_subtasks : List α
  needs_human : Bool
  human_decision : Option String
  error : Option String

/-- `_check_overall_score` (planner_graph.py lines 33-40). -/
def check_overall_score (error : Bool) (overall threshold : ℚ) : String :=
  if error then "error"
  else if threshold ≤ overall then "proceed"
  else "review"

/-- `_set_approved_subtasks_node`: approves the merged subtasks and clears
`needs_human`. -/
def set_approved_subtasks_node {α : Type} (merged : List α) : PlannerHitlState α :=
  { approved_subtasks := merged, needs_human := false,
    human_decision := none, error := none }

/-- `_hitl_validation_node` (planner_graph.py lines 315-348); `prev` is the
`approved_subtasks` field before the node runs, untouched on rejection. -/
def hitl_validation_node {α : Type} (prev merged : List α)
    (response : Option String) : PlannerHitlState α :=
  let approval :=
    match response with
    | none => "Y"
    | some raw =>
        let p := pyUpper (pyStrip raw)
        if p = "" then "Y" else p
  if approval = "Y" then
    { approved_subtasks := merged, needs_human := false,
      human_decision := none, error := none }
  else
    { approved_subtasks := prev, needs_human := true,
      human_decision := some "reject",
      error := some "Subtasks rejected by human - rebuild required" }

/-- `hitl_pause` (core/hitl.py lines 14-41), reduced to the decision it puts
into the state; `none` is a timeout. -/
def hitl_pause_decision (response : Option String) : String :=
  match response with
  | none => "approve"
  | some raw =>
      let resp :=
        let p := pyUpper (pyStrip raw)
        if p = "" then "Y" else p
      if resp = "Y" then "approve" else "reject"

/-- `_route_human_decision` (core/graph.py lines 179-184). -/
def route_human_decision (error : Option String) (decision : Option String) : String :=
  if error.isSome then "error" else decision.getD "approve"

/-- Conditional-edge mapping of the outer `hitl` node (core/graph.py
lines 141-143). -/
def hitl_edge_target (route : String) : String :=
  if route = "approve" then "project_creator"
  else if route = "reject" then "planner_agent"
  else "error_handler"

/-- Unconditional edge `project_creator → assembler_agent` (core/graph.py
line 137). -/
def project_creator_successor : String := "assembler_agent"

/-- Default of `int(os.getenv("HITL_TIMEOUT_SECONDS", "30"))`. -/
def HITL_TIMEOUT_SECONDS_default : ℕ := 30

/-- Claim C8: when the planner's overall score reaches `SCORE_THRESHOLD` the
plan auto-approves ("proceed") without entering the HITL node; below the
threshold the gate routes to HITL with a wait bounded by the configured
timeout (default 30 s), and a timeout (`none` response) approves fail-open,
leaving `needs_human` false; the outer `hitl` node likewise approves on
timeout and routes via `project_creator` to the assembler. -/
theorem hitl_gate_fail_open :
    (∀ overall threshold : ℚ, threshold ≤ overall →
        check_overall_score false overall threshold = "proceed") ∧
    (∀ overall threshold : ℚ, overall < threshold →
        check_overall_score false overall threshold = "review") ∧
    (∀ (α : Type) (prev merged : List α),
        hitl_validation_node prev merged none
          = { approved_subtasks := merged, needs_human := false,
              human_decision := none, error := none }) ∧
    (hitl_pause_decision none = "approve") ∧
    (hitl_edge_target (route_human_decision none (some (hitl_pause_decision none)))
        = "project_creator") ∧
    (project_creator_successor = "assembler_agent") ∧
    (HITL_TIMEOUT_SECONDS_default = 30) := by
  refine ⟨?_, ?_, ?_, rfl, rfl, rfl, rfl⟩
  · intro overall threshold h
    simp [check_overall_score, h]
  · intro overall threshold h
    simp [check_overall_score, not_le.mpr h]
  · intro α prev merged
    rfl

/-- Witness for C8 at concrete scores: overall 8.0 against threshold 7.0
proceeds, overall 5.0 against threshold 7.0 goes to review, and the timeout
path on a concrete subtask list approves with `needs_human` false. -/
theorem hitl_gate_fail_open_witness :
    check_overall_score false 8 7 = "proceed" ∧
    check_overall_score false 5 7 = "review" ∧
    hitl_validation_node ["p"] ["m"] none
      = { approved_subtasks := ["m"], needs_human := false,
          human_decision := none, error := none } := by
  refine ⟨hitl_gate_fail_open.1 8 7 (by norm_num),
          hitl_gate_fail_open.2.1 5 7 (by norm_num),
          hitl_gate_fail_open.2.2.1 String ["p"] ["m"]⟩

end AgentFlow

namespace AgentFlow

/-! ## Dictionary update, `tools/assembler_tool.py` and `tools/developer_tool.py` -/

/-- Python `d[key] = v` on a JSON object: updates the existing entry in place
(keeping insertion order) or appends a new one; any other value is returned
unchanged (the callers only ever pass dicts). -/
def jset (j : Json) (key : String) (v : Json) : Json :=
  match j with
  | .obj fields =>
      if fields.any (fun kv => kv.1 == key) then
        .obj (fields.map (fun kv => if kv.1 == key then (kv.1, v) else kv))
      else
        .obj (fields ++ [(key, v)])
  | _ => j

lemma find_update_self (l : List (String × Json)) (k : String) (v : Json) :
    (l.map (fun kv => if kv.1 == k then (kv.1, v) else kv)).find? (fun kv => kv.1 == k)
      = (l.find? (fun kv => kv.1 == k)).map (fun kv => (kv.1, v)) := by
  rw [List.find?_map]
  have hcomp : ((fun kv => kv.1 == k) ∘ fun kv : String × Json =>
      if kv.1 == k then (kv.1, v) else kv) = fun kv => kv.1 == k := by
    funext kv
    by_cases h : kv.1 = k
    · simp [h]
    · simp [h, beq_iff_eq]
  rw [hcomp]
  cases hf : l.find? (fun kv => kv.1 == k) with
  | none => rfl
  | some kv =>
      have hp := @List.find?_some _ (fun kv : String × Json => kv.1 == k) kv l hf
      have he : kv.1 = k := beq_iff_eq.mp hp
      simp [he]

lemma find_update_ne (l : List (String × Json)) (k kq : String) (v : Json) (h : kq ≠ k) :
    (l.map (fun kv => if kv.1 == k then (kv.1, v) else kv)).find? (fun kv => kv.1 == kq)
      = l.find? (fun kv => kv.1 == kq) := by
  rw [List.find?_map]
  have hcomp : ((fun kv => kv.1 == kq) ∘ fun kv : String × Json =>
      if kv.1 == k then (kv.1, v) else kv) = fun kv => kv.1 == kq := by
    funext kv
    by_cases hk : kv.1 = k
    · simp [hk]
    · simp [hk, beq_iff_eq]
  rw [hcomp]
  cases hf : l.find? (fun kv => kv.1 == kq) with
  | none => rfl
  | some kv =>
      have hp := @List.find?_some _ (fun kv : String × Json => kv.1 == kq) kv l hf
      have he : kv.1 = kq := beq_iff_eq.mp hp
      have hne : ¬kv.1 = k := by rw [he]; exact h
      simp [hne]

lemma jget_jset_self (fields : List (String × Json)) (k : String) (v d : Json) :
    jget (jset (Json.obj fields) k v) k d = v := by
  unfold jset jget
  by_cases h : fields.any (fun kv => kv.1 == k)
  · simp only [h, if_true]
    rw [← List.map_reverse, find_update_self]
    have : (fields.reverse.find? (fun kv => kv.1 == k)).isSome := by
      rw [List.find?_isSome]
      simpa [List.any_eq_true] using h
    rcases ho : fields.reverse.find? (fun kv => kv.1 == k) with _ | kv
    · rw [ho] at this; simp at this
    · simp [ho]
  · simp only [h]
    simp [List.reverse_append, List.find?]

lemma jget_jset_other (fields : List (String × Json)) (k kq : String) (v d : Json)
    (h : kq ≠ k) :
    jget (jset (Json.obj fields) k v) kq d = jget (Json.obj fields) kq d := by
  unfold jset jget
  by_cases ha : fields.any (fun kv => kv.1 == k)
  · simp only [ha, if_true]
    rw [← List.map_reverse, find_update_ne _ _ _ _ h]
  · simp only [ha]
    have hb : (k == kq) = false := beq_false_of_ne (fun e => h e.symm)
    simp [List.reverse_append, List.find?, hb]

lemma jIsObj_jset (fields : List (String × Json)) (k : String) (v : Json) :
    jIsObj (jset (Json.obj fields) k v) = true := by
  unfold jset
  by_cases h : fields.any (fun kv => kv.1 == k) <;> simp [h, jIsObj]

end AgentFlow

namespace AgentFlow

/-! ### `_validate_document_structure` (assembler_tool.py lines 128-164)

Missing core and optional top-level fields are inserted as empty dicts;
`file_structure.files` that is missing, falsy or not a list is replaced by the
empty list (never by a synthesized entry), and `file_structure.file_types`
likewise defaults to the empty list.  A non-dict `file_structure` value would
raise in Python and is passed through unchanged here. -/

def core_fields : List String :=
  ["metadata", "project_overview", "implementation_plan", "file_structure"]

def optional_fields : List String :=
  ["technical_specifications", "deployment_instructions"]

/-- `for field in fields: if field not in document: document[field] = dict()`. -/
def ensureKeys (fields : List String) (doc : Json) : Json :=
  fields.foldl (fun d f => if jHasKey d f then d else jset d f (Json.obj [])) doc

/-- `if not isinstance(file_structure.get('files'), list): file_structure['files'] = []`. -/
def fixFilesIsList (fs1 : Json) : Json :=
  if jIsArr (jget fs1 "files" Json.null) = false then
      jset fs1 "files" (Json.arr []) else fs1

/-- `if not file_structure.get('files'): file_structure['files'] = []` followed
by the isinstance check. -/
def fixFilesList (fs : Json) : Json :=
  fixFilesIsList (if pyTruthy (jget fs "files" Json.null) = false then
      jset fs "files" (Json.arr []) else fs)

/-- `if not file_structure.get('file_types'): file_structure['file_types'] = []`. -/
def fixFileTypes (fs : Json) : Json :=
  if pyTruthy (jget fs "file_types" Json.null) = false then
      jset fs "file_types" (Json.arr []) else fs

/-- The `file_structure` sub-field fixups of `_validate_document_structure`;
the Python code mutates the shared dict in place, modelled by writing the
fixed sub-dict back into the document. -/
def fixFileStructure (doc : Json) : Json :=
  jset doc "file_structure" (fixFileTypes (fixFilesList (jget doc "file_structure" (Json.obj []))))

def validate_document_structure (doc : Json) : Json :=
  fixFileStructure (ensureKeys optional_fields (ensureKeys core_fields doc))

end AgentFlow

namespace AgentFlow

/-! ### `tools/developer_tool.py` — `_extract_code_from_llm_response` and
`generate_code_files` (lines 53-169)

`call_llm` together with the prompt construction (`prompt_loader.format`
reads template files from disk) is abstracted as the parameter
`llm : Json → String` mapping each file-info dict to the model's response
content; token accounting does not influence any control flow and is omitted.
A non-dict entry in `files` raises in a worker thread, surfaces at
`future.result()` and is caught by the outer handler, so the whole call
fails. -/

/-- Python regex `\w` (ASCII-faithful). -/
def isWordChar (c : Char) : Bool := c.isAlphanum || c = '_'

/-- `_extract_code_from_llm_response`: the first code fence opens the match,
an optional language word plus newline is skipped, and the greedy `(.*)`
captures up to the last closing fence; with no fence (or no closing fence)
the whole text is stripped. -/
def extract_code_from_llm_response (text : String) : String :=
  let cs := text.toList
  let fence := "```".toList
  match (subOccurrences cs fence).head? with
  | none => pyStrip text
  | some i =>
      let afterFence := cs.drop (i + 3)
      let word := afterFence.takeWhile isWordChar
      let afterOpt :=
        if !word.isEmpty && ((afterFence.drop word.length).head? == some (Char.ofNat 10)) then
          afterFence.drop (word.length + 1)
        else afterFence
      match (subOccurrences afterOpt fence).getLast? with
      | some j => pyStrip (String.mk (afterOpt.take j))
      | none => pyStrip text

inductive GenOutcome where
  | failure (error : String)
  | success (generated_files : List (Json × String))

/-- The worker `generate_single_file`: a falsy filename is skipped, the LLM
response is stripped of its code fence, and an empty result is skipped. -/
def generate_single_file (llm : Json → String) (file_info : Json) :
    Option (Json × String) :=
  let filename := jget file_info "filename" (Json.str "")
  if pyTruthy filename = false then none
  else
    let generated_code := extract_code_from_llm_response (llm file_info)
    if generated_code = "" then none
    else some (filename, generated_code)

def generate_code_files (llm : Json → String) (deployment_document : Json) :
    GenOutcome :=
  if pyTruthy deployment_document = false then
    GenOutcome.failure "Deployment document is empty"
  else
    let file_structure := jget deployment_document "file_structure" (Json.obj [])
    if pyTruthy file_structure = false then
      GenOutcome.failure "file_structure missing from deployment document"
    else
      let files := jget file_structure "files" (Json.arr [])
      if pyTruthy files = false then
        GenOutcome.failure "No files defined in file_structure"
      else
        match files with
        | .arr fileInfos =>
            if fileInfos.all jIsObj = false then
              GenOutcome.failure "TypeError"
            else
              let generated := fileInfos.filterMap (generate_single_file llm)
              if generated.isEmpty then
                GenOutcome.failure
                  ("No files generated - attempted " ++ toString fileInfos.length ++ " files")
              else GenOutcome.success generated
        | _ => GenOutcome.failure "TypeError"

end AgentFlow

namespace AgentFlow

lemma jget_not_hasKey (fields : List (String × Json)) (k : String) (d : Json)
    (h : jHasKey (Json.obj fields) k = false) : jget (Json.obj fields) k d = d := by
  simp only [jHasKey] at h
  simp only [jget]
  have hnone : fields.reverse.find? (fun kv => kv.1 == k) = none := by
    rw [List.find?_eq_none]
    intro kv hkv
    have hmem : kv ∈ fields := List.mem_reverse.mp hkv
    intro hp
    have : fields.any (fun kv => kv.1 == k) = true :=
      List.any_eq_true.mpr ⟨kv, hmem, hp⟩
    rw [this] at h
    exact Bool.true_eq_false.mp h
  rw [hnone]

lemma jIsObj_ensureKeys (fields : List String) (doc : Json) (h : jIsObj doc = true) :
    jIsObj (ensureKeys fields doc) = true := by
  induction fields generalizing doc with
  | nil => exact h
  | cons f fs ih =>
      show jIsObj (ensureKeys fs (if jHasKey doc f then doc else jset doc f (Json.obj []))) = true
      by_cases hk : jHasKey doc f
      · rw [if_pos hk]; exact ih doc h
      · rw [if_neg hk]
        rcases doc with _ | _ | _ | _ | _ | _ | dfields
        · exact absurd h (by simp [jIsObj])
        · exact absurd h (by simp [jIsObj])
        · exact absurd h (by simp [jIsObj])
        · exact absurd h (by simp [jIsObj])
        · exact absurd h (by simp [jIsObj])
        · exact absurd h (by simp [jIsObj])
        · exact ih _ (jIsObj_jset dfields f (Json.obj []))

lemma jget_ensureKeys (fields : List String) (doc : Json) (h : jIsObj doc = true)
    (k : String) :
    jget (ensureKeys fields doc) k (Json.obj []) = jget doc k (Json.obj []) := by
  induction fields generalizing doc with
  | nil => rfl
  | cons f fs ih =>
      show jget (ensureKeys fs (if jHasKey doc f then doc else jset doc f (Json.obj [])))
          k (Json.obj []) = _
      by_cases hk : jHasKey doc f
      · rw [if_pos hk]; exact ih doc h
      · rw [if_neg hk]
        rcases doc with _ | _ | _ | _ | _ | _ | dfields
        · exact absurd h (by simp [jIsObj])
        · exact absurd h (by simp [jIsObj])
        · exact absurd h (by simp [jIsObj])
        · exact absurd h (by simp [jIsObj])
        · exact absurd h (by simp [jIsObj])
        · exact absurd h (by simp [jIsObj])
        · rw [ih _ (jIsObj_jset dfields f (Json.obj []))]
          by_cases hfk : k = f
          · subst hfk
            rw [jget_jset_self, jget_not_hasKey _ _ _ (Bool.not_eq_true _ ▸ (by simpa using hk))]
          · rw [jget_jset_other _ _ _ _ _ hfk]

lemma fixFilesList_default (ffields : List (String × Json))
    (h : pyTruthy (jget (Json.obj ffields) "files" Json.null) = false ∨
         jIsArr (jget (Json.obj ffields) "files" Json.null) = false) :
    fixFilesList (Json.obj ffields) = jset (Json.obj ffields) "files" (Json.arr []) := by
  unfold fixFilesList fixFilesIsList
  by_cases hf : pyTruthy (jget (Json.obj ffields) "files" Json.null) = false
  · rw [if_pos hf, jget_jset_self]
    simp [jIsArr]
  · rw [if_neg hf]
    rcases h with h | h
    · exact absurd h hf
    · rw [if_pos h]

lemma jget_fixFileTypes_files (fs : Json) (d : Json) :
    jget (fixFileTypes fs) "files" d = jget fs "files" d := by
  unfold fixFileTypes
  by_cases h : pyTruthy (jget fs "file_types" Json.null) = false
  · rw [if_pos h]
    rcases fs with _ | _ | _ | _ | _ | _ | ffields
    · rfl
    · rfl
    · rfl
    · rfl
    · rfl
    · rfl
    · exact jget_jset_other _ _ _ _ _ (by decide)
  · rw [if_neg h]

lemma jset_on_obj_exists (fields : List (String × Json)) (k : String) (v : Json) :
    ∃ l, jset (Json.obj fields) k v = Json.obj l := by
  simp only [jset]
  by_cases h : fields.any (fun kv => kv.1 == k)
  · exact ⟨_, by rw [if_pos h]⟩
  · exact ⟨_, by rw [if_neg h]⟩

end AgentFlow

namespace AgentFlow

lemma jIsObj_exists (j : Json) (h : jIsObj j = true) : ∃ l, j = Json.obj l := by
  rcases j with _ | _ | _ | _ | _ | _ | l
  · exact absurd h (by simp [jIsObj])
  · exact absurd h (by simp [jIsObj])
  · exact absurd h (by simp [jIsObj])
  · exact absurd h (by simp [jIsObj])
  · exact absurd h (by simp [jIsObj])
  · exact absurd h (by simp [jIsObj])
  · exact ⟨l, rfl⟩

/-- Claim C4 (counterexample): on a deployment document whose
`file_structure.files` is the empty list, `_validate_document_structure`
leaves `files` as the empty list — no default file entry is synthesized from
the issue title — and `generate_code_files` then fails with "No files defined
in file_structure" instead of proceeding. -/
theorem validate_document_no_file_synthesis_counterexample :
    jget (jget (validate_document_structure (Json.obj
        [("metadata", Json.obj []), ("project_overview", Json.obj []),
         ("implementation_plan", Json.obj []),
         ("file_structure", Json.obj [("files", Json.arr [])])]))
      "file_structure" (Json.obj [])) "files" Json.null = Json.arr [] ∧
    generate_code_files (fun _ => "") (validate_document_structure (Json.obj
        [("metadata", Json.obj []), ("project_overview", Json.obj []),
         ("implementation_plan", Json.obj []),
         ("file_structure", Json.obj [("files", Json.arr [])])]))
      = GenOutcome.failure "No files defined in file_structure" := by
  constructor
  · rfl
  · rfl

/-- Claim C4 (amended): when the validated deployment document has
`file_structure.files` missing, falsy or not a list, the validator inserts
the *empty* list (no default file entry synthesized from the issue title),
and the developer tool then fails with "No files defined in
file_structure" rather than proceeding. -/
theorem validate_document_files_default :
    (∀ (fields ffields : List (String × Json)),
        jget (Json.obj fields) "file_structure" (Json.obj []) = Json.obj ffields →
        (pyTruthy (jget (Json.obj ffields) "files" Json.null) = false ∨
          jIsArr (jget (Json.obj ffields) "files" Json.null) = false) →
        jget (jget (validate_document_structure (Json.obj fields))
            "file_structure" (Json.obj [])) "files" Json.null = Json.arr []) ∧
    (∀ (llm : Json → String) (doc : Json),
        pyTruthy doc = true →
        pyTruthy (jget doc "file_structure" (Json.obj [])) = true →
        jget (jget doc "file_structure" (Json.obj [])) "files" (Json.arr [])
          = Json.arr [] →
        generate_code_files llm doc
          = GenOutcome.failure "No files defined in file_structure") := by
  constructor
  · intro fields ffields hfs hdef
    unfold validate_document_structure fixFileStructure
    have hobj : jIsObj (Json.obj fields) = true := rfl
    have hobj1 := jIsObj_ensureKeys core_fields _ hobj
    have hobj2 := jIsObj_ensureKeys optional_fields _ hobj1
    have hget2 : jget (ensureKeys optional_fields (ensureKeys core_fields (Json.obj fields)))
        "file_structure" (Json.obj []) = Json.obj ffields := by
      rw [jget_ensureKeys _ _ hobj1, jget_ensureKeys _ _ hobj, hfs]
    obtain ⟨dfields, hdf⟩ := jIsObj_exists _ hobj2
    rw [hdf] at hget2 ⊢
    rw [jget_jset_self, hget2, fixFilesList_default _ hdef, jget_fixFileTypes_files]
    exact jget_jset_self ffields "files" (Json.arr []) Json.null
  · intro llm doc h1 h2 h3
    simp only [generate_code_files]
    rw [h3]
    rw [if_neg (by rw [h1]; simp), if_neg (by rw [h2]; simp)]
    rfl

/-- Witness for C4 at concrete documents: a document whose `file_structure`
is an empty dict gets `files = []`, and a document with an explicitly empty
`files` list makes the developer tool fail. -/
theorem validate_document_files_default_witness :
    jget (jget (validate_document_structure
        (Json.obj [("file_structure", Json.obj [])]))
      "file_structure" (Json.obj [])) "files" Json.null = Json.arr [] ∧
    generate_code_files (fun _ => "")
        (Json.obj [("file_structure", Json.obj [("files", Json.arr [])])])
      = GenOutcome.failure "No files defined in file_structure" := by
  refine ⟨validate_document_files_default.1 [("file_structure", Json.obj [])] []
            (by rfl) (Or.inl (by rfl)),
          validate_document_files_default.2 (fun _ => "")
            (Json.obj [("file_structure", Json.obj [("files", Json.arr [])])])
            (by rfl) (by rfl) (by rfl)⟩

end AgentFlow

namespace AgentFlow

/-! ## `tools/planner_tools.py` — `score_subtasks_with_llm` (lines 229-346)
and `_score_subtasks_node` (planner_graph.py lines 206-249)

The graph nodes are the raw `(node_id, node_data)` pairs of
`subtasks_graph["nodes"]` (ids keep whatever type the generation step put
there); the model's parsed score list is passed in as `scores_data`.  The
lookup map `original_subtasks` is keyed by `str(node_id)`; dict
comprehension keeps the last duplicate.  `int(subtask_id_str)` and
`float(score_item.get('score', 7.5))` can raise, failing the whole tool;
Python's numeric key unification in dicts (`1.0` or `True` hitting the key
`1`) is not modelled, and no claim depends on it. -/

structure ScoredOut where
  id : Json
  description : Json
  priority : Json
  score : ℚ
  reasoning : Json
  requirements_covered : Json

/-- `original_subtasks[str(score_item.get('id'))]`, last duplicate wins. -/
def lookupNode (nodes : List (Json × Json)) (sid : String) : Option Json :=
  ((nodes.map (fun nd => (pyStrJson nd.1, nd.2))).reverse.find?
    (fun kv => kv.1 == sid)).map (fun kv => kv.2)

/-- One iteration of the `for score_item in scores_data` loop: `none` skips
the item, `Except.error` models a raised exception. -/
def scoreItemStep (s2f : String → Option ℚ) (nodes : List (Json × Json))
    (item : Json) : Except String (Option ScoredOut) :=
  if jIsObj item = false then Except.ok none
  else
    let sid := pyStrJson (jget item "id" Json.null)
    match lookupNode nodes sid with
    | none => Except.ok none
    | some node_data =>
        match pyIntOfString sid with
        | none => Except.error "ValueError"
        | some z =>
            match pyFloatOf s2f (jget item "score" (Json.float (15/2))) with
            | none => Except.error "ValueError"
            | some sc =>
                if jHasKey node_data "priority" = false then Except.error "KeyError"
                else
                  Except.ok (some
                    { id := Json.int z
                      description := jget node_data "description" Json.null
                      priority := jget node_data "priority" Json.null
                      score := sc
                      reasoning := jget item "reasoning" (Json.str "")
                      requirements_covered := jget item "requirements_covered"
                        (jget node_data "requirements_covered" (Json.arr [])) })

/-- The defaults created inside the tool when no valid scored subtask was
extracted: one entry per node with score 7.5. -/
def defaultScoredTool (nodes : List (Json × Json)) : List ScoredOut :=
  nodes.map (fun nd =>
    { id := nd.1
      description := jget nd.2 "description" (Json.str "")
      priority := jget nd.2 "priority" (Json.int 3)
      score := 15/2
      reasoning := Json.str "Default score assigned due to LLM response parsing issues"
      requirements_covered := jget nd.2 "requirements_covered" (Json.arr []) })

/-- The post-LLM processing of `score_subtasks_with_llm`: nested-list unwrap,
validation filter, per-item loop, and the all-nodes 7.5 default when nothing
valid was extracted. -/
def score_subtasks_process (s2f : String → Option ℚ) (nodes : List (Json × Json))
    (scores_data : List Json) : Except String (List ScoredOut) :=
  if nodes.isEmpty then Except.ok []
  else if nodes.all (fun nd => jHasKey nd.2 "description") = false then
    Except.error "KeyError"
  else
    let unwrapped := match scores_data with
      | (Json.arr inner) :: _ => inner
      | _ => scores_data
    let validated := unwrapped.filter (fun item => jIsObj item && jHasKey item "id")
    match validated.mapM (scoreItemStep s2f nodes) with
    | Except.error e => Except.error e
    | Except.ok opts =>
        let scored := opts.filterMap id
        if scored.isEmpty then Except.ok (defaultScoredTool nodes)
        else Except.ok scored

/-- The defaults created in `_score_subtasks_node` when the tool returned an
empty list, and the node's overall-score computation. -/
def defaultScoredNode (nodes : List (Json × Json)) : List ScoredOut :=
  nodes.map (fun nd =>
    { id := nd.1
      description := jget nd.2 "description" (Json.str "")
      priority := jget nd.2 "priority" (Json.int 3)
      score := 15/2
      reasoning := Json.str "Default score assigned due to LLM scoring limitations"
      requirements_covered := jget nd.2 "requirements_covered" (Json.arr []) })

def score_subtasks_node_post (nodes : List (Json × Json)) (scored : List ScoredOut) :
    List ScoredOut × ℚ :=
  if scored.isEmpty then (defaultScoredNode nodes, 15/2)
  else (scored, (scored.map (fun st => st.score)).sum / scored.length)

end AgentFlow

namespace AgentFlow

/-! ## `tools/planner_tools.py` — `merge_subtasks` (lines 349-456)

After parsing and validation the merged subtasks are dicts; the score
assignment loop reads `covered_subtasks` (default `[]`), averages the scores
of known sources when it is a truthy list, and otherwise falls back to the
global average of all scored subtasks.  The overall score is the mean of the
assigned scores rounded to one decimal. -/

structure ScoredSubtask where
  id : ℤ
  description : String
  score : ℚ

/-- `scored_map = \x7bst['id']: st for st in scored_subtasks\x7d`, later
duplicates overwrite. -/
def scoredLookup (scored : List ScoredSubtask) (z : ℤ) : Option ScoredSubtask :=
  scored.reverse.find? (fun st => st.id == z)

/-- `if source_id in scored_map: total += scored_map[source_id]['score']`. -/
def sourceContribution (scored : List ScoredSubtask) (sid : Json) : Option ℚ :=
  match sid with
  | Json.int z => (scoredLookup scored z).map (fun st => st.score)
  | _ => none

/-- `sum(st.get('score', 0.0) for st in scored_subtasks) / len(scored_subtasks)
if scored_subtasks else 0.0`. -/
def fallbackAvg (scored : List ScoredSubtask) : ℚ :=
  if scored.isEmpty then 0
  else (scored.map (fun st => st.score)).sum / scored.length

/-- `round(total_score / count, 1) if count > 0 else 0.0`. -/
def avgContributions (contributions : List ℚ) : ℚ :=
  if 0 < contributions.length then round1 (contributions.sum / contributions.length)
  else 0

/-- The known-sources branch of the score assignment. -/
def coveredScore (scored : List ScoredSubtask) : Json → ℚ
  | Json.arr ids => avgContributions (ids.filterMap (sourceContribution scored))
  | _ => 0

/-- Score assigned to one merged subtask dict: average of known sources when
`covered_subtasks` is a truthy list, else the global fallback average. -/
def mergeSubtaskScore (scored : List ScoredSubtask) (m : Json) : ℚ :=
  if pyTruthy (jget m "covered_subtasks" (Json.arr [])) &&
      jIsArr (jget m "covered_subtasks" (Json.arr [])) then
    coveredScore scored (jget m "covered_subtasks" (Json.arr []))
  else
    round1 (fallbackAvg scored)

/-- Scores assigned to the whole merged list. -/
def mergeAssignedScores (scored : List ScoredSubtask) (merged : List Json) : List ℚ :=
  merged.map (mergeSubtaskScore scored)

/-- `round(sum(scores) / len(merged) if merged else 0.0, 1)`. -/
def mergeOverallScore (assigned : List ℚ) : ℚ :=
  round1 (if assigned.isEmpty then 0 else assigned.sum / assigned.length)

/-- Modelled from the spec: the textual-match fallback the specification
describes ("if absent, fall back to textual match with an original") — a
merged subtask whose description equals an original scored subtask's
description would take that original's score.  No such step exists in
`merge_subtasks`; this definition exists only to compare the claim against
the code. -/
def specTextualMatchScore (scored : List ScoredSubtask) (m : Json) : Option ℚ :=
  match jget m "description" (Json.str "") with
  | Json.str d => (scored.find? (fun st => st.description == d)).map (fun st => st.score)
  | _ => none

end AgentFlow

namespace AgentFlow

/-- Claim C5 (counterexample): a two-node subtask graph whose model score list
carries a valid entry only for node 1 yields a scored list with a single
element — node 2 neither appears nor receives the 7.5 default, so the scoring
step does not always return one scored subtask per graph node. -/
theorem score_subtasks_partial_coverage_counterexample :
    score_subtasks_process (fun _ => none)
      [(Json.int 1, Json.obj [("description", Json.str "d1"), ("priority", Json.int 1)]),
       (Json.int 2, Json.obj [("description", Json.str "d2"), ("priority", Json.int 2)])]
      [Json.obj [("id", Json.int 1), ("score", Json.int 9)]]
      = Except.ok [{ id := Json.int 1, description := Json.str "d1",
                     priority := Json.int 1, score := 9, reasoning := Json.str "",
                     requirements_covered := Json.arr [] }] ∧
    (1 : ℕ) < 2 ∧
    score_subtasks_node_post
      [(Json.int 1, Json.obj [("description", Json.str "d1"), ("priority", Json.int 1)]),
       (Json.int 2, Json.obj [("description", Json.str "d2"), ("priority", Json.int 2)])]
      [{ id := Json.int 1, description := Json.str "d1",
         priority := Json.int 1, score := 9, reasoning := Json.str "",
         requirements_covered := Json.arr [] }]
      = ([{ id := Json.int 1, description := Json.str "d1",
            priority := Json.int 1, score := 9, reasoning := Json.str "",
            requirements_covered := Json.arr [] }], 9) := by
  refine ⟨?_, by norm_num, ?_⟩
  · rfl
  · unfold score_subtasks_node_post
    norm_num

/-- Claim C5 (amended): the 7.5 defaults are all-or-nothing — when the model's
score list yields *no* valid scored subtask the tool returns one default
entry per graph node, each with score 7.5; but when at least one node gets a
valid entry, the scored list passes through unchanged and nodes missing a
valid entry are simply absent. -/
theorem score_subtasks_default_only_when_empty :
    (∀ (s2f : String → Option ℚ) (nodes : List (Json × Json)),
        nodes ≠ [] →
        nodes.all (fun nd => jHasKey nd.2 "description") = true →
        score_subtasks_process s2f nodes [] = Except.ok (defaultScoredTool nodes)) ∧
    (∀ nodes, (defaultScoredTool nodes).length = nodes.length) ∧
    (∀ nodes st, st ∈ defaultScoredTool nodes → st.score = 15/2) ∧
    (∀ (nodes : List (Json × Json)) (scored : List ScoredOut), scored ≠ [] →
        score_subtasks_node_post nodes scored
          = (scored, (scored.map (fun st => st.score)).sum / scored.length)) := by
  refine ⟨?_, ?_, ?_, ?_⟩
  · intro s2f nodes h1 h2
    have he : nodes.isEmpty = false := by
      cases nodes with
      | nil => exact absurd rfl h1
      | cons a l => rfl
    unfold score_subtasks_process
    rw [if_neg (by rw [he]; simp), if_neg (by rw [h2]; simp)]
    rfl
  · intro nodes
    simp [defaultScoredTool]
  · intro nodes st h
    simp only [defaultScoredTool, List.mem_map] at h
    obtain ⟨nd, _, hst⟩ := h
    rw [← hst]
  · intro nodes scored h
    have he : scored.isEmpty = false := by
      cases scored with
      | nil => exact absurd rfl h
      | cons a l => rfl
    unfold score_subtasks_node_post
    rw [if_neg (by rw [he]; simp)]

/-- Witness for C5 at concrete inputs: a one-node graph with an empty score
list yields the single 7.5 default; a non-empty scored list passes through
the graph node unchanged. -/
theorem score_subtasks_default_only_when_empty_witness :
    score_subtasks_process (fun _ => none)
      [(Json.int 1, Json.obj [("description", Json.str "d1")])] []
      = Except.ok (defaultScoredTool [(Json.int 1, Json.obj [("description", Json.str "d1")])]) ∧
    score_subtasks_node_post []
      ([{ id := Json.int 1, description := Json.str "d1", priority := Json.int 3,
          score := 4, reasoning := Json.str "", requirements_covered := Json.arr [] }] :
        List ScoredOut)
      = (([{ id := Json.int 1, description := Json.str "d1", priority := Json.int 3,
             score := 4, reasoning := Json.str "", requirements_covered := Json.arr [] }] :
           List ScoredOut),
         (([{ id := Json.int 1, description := Json.str "d1", priority := Json.int 3,
              score := 4, reasoning := Json.str "", requirements_covered := Json.arr [] }] :
            List ScoredOut).map (fun st => st.score)).sum /
           (([{ id := Json.int 1, description := Json.str "d1", priority := Json.int 3,
                score := 4, reasoning := Json.str "", requirements_covered := Json.arr [] }] :
              List ScoredOut).length : ℚ)) := by
  refine ⟨score_subtasks_default_only_when_empty.1 (fun _ => none) _ (by simp) (by rfl),
          score_subtasks_default_only_when_empty.2.2.2 [] _ (by simp)⟩

end AgentFlow

namespace AgentFlow

/-- Claim C6 (counterexample): `covered_subtasks` is absent on a merged
subtask whose description ("alpha") textually matches the original scored
subtask with score 4.0; the claimed textual-match fallback would assign 4.0,
but `merge_subtasks` goes straight to the global average and assigns 6.0 —
no textual-match step exists in the code. -/
theorem merge_subtasks_no_textual_match_counterexample :
    mergeSubtaskScore [⟨1, "alpha", 4⟩, ⟨2, "beta", 8⟩]
      (Json.obj [("id", Json.int 10), ("description", Json.str "alpha")]) = 6 ∧
    specTextualMatchScore [⟨1, "alpha", 4⟩, ⟨2, "beta", 8⟩]
      (Json.obj [("id", Json.int 10), ("description", Json.str "alpha")]) = some 4 ∧
    (6 : ℚ) ≠ 4 := by
  refine ⟨?_, by rfl, by norm_num⟩
  have h : mergeSubtaskScore [⟨1, "alpha", 4⟩, ⟨2, "beta", 8⟩]
      (Json.obj [("id", Json.int 10), ("description", Json.str "alpha")])
      = round1 (fallbackAvg [⟨1, "alpha", 4⟩, ⟨2, "beta", 8⟩]) := rfl
  rw [h]
  norm_num [fallbackAvg, round1, roundHalfEven, Int.floor_eq_iff]

/-- Claim C6 (amended): a merged subtask whose `covered_subtasks` is a
non-empty list of known source ids gets the unweighted average of those
sources' scores rounded to one decimal; when `covered_subtasks` is absent
(or empty, or not a list) the score falls back *directly* to the global
average of all scored subtasks (there is no textual-match step); the
returned overall score is the mean of the merged subtasks' assigned scores
rounded to one decimal. -/
theorem merge_subtasks_score_characterization :
    (∀ (scored : List ScoredSubtask) (m : Json) (ids : List Json),
        jget m "covered_subtasks" (Json.arr []) = Json.arr ids →
        ids ≠ [] →
        (∀ sid ∈ ids, (sourceContribution scored sid).isSome = true) →
        mergeSubtaskScore scored m
          = round1 ((ids.filterMap (sourceContribution scored)).sum
              / (ids.filterMap (sourceContribution scored)).length)) ∧
    (∀ (scored : List ScoredSubtask) (m : Json),
        (pyTruthy (jget m "covered_subtasks" (Json.arr [])) = false ∨
          jIsArr (jget m "covered_subtasks" (Json.arr [])) = false) →
        mergeSubtaskScore scored m = round1 (fallbackAvg scored)) ∧
    (∀ (scored : List ScoredSubtask) (merged : List Json), merged ≠ [] →
        mergeOverallScore (mergeAssignedScores scored merged)
          = round1 ((mergeAssignedScores scored merged).sum
              / (mergeAssignedScores scored merged).length)) := by
  refine ⟨?_, ?_, ?_⟩
  · intro scored m ids hids hne hall
    unfold mergeSubtaskScore
    rw [hids]
    have htr : (pyTruthy (Json.arr ids) && jIsArr (Json.arr ids)) = true := by
      cases ids with
      | nil => exact absurd rfl hne
      | cons a l => rfl
    rw [if_pos htr]
    have hpos : 0 < (ids.filterMap (sourceContribution scored)).length := by
      cases ids with
      | nil => exact absurd rfl hne
      | cons a l =>
          have ha := hall a (List.mem_cons_self a l)
          rcases hy : sourceContribution scored a with _ | y
          · rw [hy] at ha; simp at ha
          · simp [List.filterMap_cons, hy]
    simp only [coveredScore, avgContributions]
    rw [if_pos hpos]
  · intro scored m h
    unfold mergeSubtaskScore
    have hf : (pyTruthy (jget m "covered_subtasks" (Json.arr [])) &&
        jIsArr (jget m "covered_subtasks" (Json.arr []))) = false := by
      rcases h with h | h <;> simp [h]
    rw [if_neg (by rw [hf]; simp)]

  · intro scored merged h
    unfold mergeOverallScore
    have he : (mergeAssignedScores scored merged).isEmpty = false := by
      unfold mergeAssignedScores
      cases merged with
      | nil => exact absurd rfl h
      | cons a l => rfl
    rw [if_neg (by rw [he]; simp)]

/-- Witness for C6 at concrete inputs: a merged subtask covering the two
sources with scores 4 and 8 averages to 6.0; one without `covered_subtasks`
falls back to the global average; a one-element merged list has the mean of
its assigned scores as overall score. -/
theorem merge_subtasks_score_characterization_witness :
    mergeSubtaskScore [⟨1, "a", 4⟩, ⟨2, "b", 8⟩]
      (Json.obj [("covered_subtasks", Json.arr [Json.int 1, Json.int 2])])
      = round1 ((([Json.int 1, Json.int 2] : List Json).filterMap
          (sourceContribution [⟨1, "a", 4⟩, ⟨2, "b", 8⟩])).sum
        / (([Json.int 1, Json.int 2] : List Json).filterMap
          (sourceContribution [⟨1, "a", 4⟩, ⟨2, "b", 8⟩])).length) ∧
    mergeSubtaskScore [⟨1, "a", 4⟩] (Json.obj [("id", Json.int 3)])
      = round1 (fallbackAvg [⟨1, "a", 4⟩]) ∧
    mergeOverallScore (mergeAssignedScores [] [Json.obj []])
      = round1 ((mergeAssignedScores [] [Json.obj []]).sum
          / (mergeAssignedScores [] [Json.obj []]).length) := by
  refine ⟨merge_subtasks_score_characterization.1 _ _ [Json.int 1, Json.int 2]
            (by rfl) (by simp) ?_,
          merge_subtasks_score_characterization.2.1 _ _ (Or.inl (by rfl)),
          merge_subtasks_score_characterization.2.2 _ _ (by simp)⟩
  intro sid hs
  simp only [List.mem_cons, List.mem_singleton, List.not_mem_nil, or_false] at hs
  rcases hs with rfl | rfl
  · rfl
  · rfl

end AgentFlow

namespace AgentFlow

/-! ## `graph/developer_graph.py` — the live code-generation path

The pipeline's generation runs through `DeveloperAgent.generate_code`, which
invokes the sub-graph of `build_developer_graph()`: `_plan_files_node` reads
`file_structure.files`, `_route_to_file_generation` fans out one
`generate_file` branch per entry, and the `generated_files` reducer merges
the returned singleton dicts.  (`tools/developer_tool.py::generate_code_files`
is only placed in an unused tool list and is never called on this path.)

`generate_file` indexes `deployment_document['technical_specifications']`
(then `.get(filename, ...)` on it), `['implementation_plan']` and
`['file_structure']` directly, so a missing key or a non-dict
`technical_specifications` raises; `call_llm` may raise as well.  Any
exception in a branch aborts the whole graph invocation and is reported by
`generate_code` as a failed node, never as a partial success.  The prompt
construction itself (`prompt_loader.format`, `json.dumps`, the spec text)
only feeds the model and is folded into the `llm` parameter together with
`call_llm`; token accounting is omitted.

The branch results are kept as a list of `(filename, code)` pairs in
declaration order; the `\x7b**x, **y\x7d` reducer turns them into a dict, which
collapses duplicate filenames (with nondeterministic completion order) and is
the identity on documents whose declared filenames are distinct. -/

/-- One replacement step of `re.sub(r'```.*?\n', '', g, flags=re.DOTALL)`:
the leftmost fence followed by a newline, split into the text before the
fence and the text after that first newline.  If the first fence has no
later newline, no fence has one, and no replacement happens. -/
def fenceMatchSplit (cs : List Char) : Option (List Char × List Char) :=
  match (subOccurrences cs ("```".toList)).head? with
  | none => none
  | some i =>
      match (cs.drop (i + 3)).findIdx? (fun c => c = Char.ofNat 10) with
      | none => none
      | some j => some (cs.take i, (cs.drop (i + 3)).drop (j + 1))

/-- Iterated replacement; every step consumes the fence and its newline
(at least four characters of the remaining suffix), so a fuel of the input
length is never exhausted. -/
def removeFenceLinesAux : ℕ → List Char → List Char
  | 0, cs => cs
  | fuel + 1, cs =>
      match fenceMatchSplit cs with
      | none => cs
      | some (pre, rest) => pre ++ removeFenceLinesAux fuel rest

/-- `re.sub(r'```.*?\n', '', generated_code, flags=re.DOTALL)`. -/
def removeFenceLines (cs : List Char) : List Char := removeFenceLinesAux cs.length cs

/-- Python `s.rsplit(pat, 1)[0]`: everything before the last occurrence of
`pat`, the whole string when `pat` does not occur. -/
def rsplitBefore (cs pat : List Char) : List Char :=
  match (subOccurrences cs pat).getLast? with
  | none => cs
  | some i => cs.take i

/-- The fence cleanup of `generate_file` (developer_graph.py lines 98-103):
strip, and if a fence is present, drop each fence line and cut at the last
remaining fence, stripping again. -/
def cleanCodeBlock (content : String) : String :=
  let generated_code := pyStrip content
  if (subOccurrences generated_code.toList ("```".toList)).isEmpty then generated_code
  else
    pyStrip (String.mk (rsplitBefore (removeFenceLines generated_code.toList)
      ("```".toList)))

/-- `generate_file` (developer_graph.py lines 76-108): always returns the
`\x7bfilename: generated_code\x7d` entry — an empty model answer yields an entry
with empty content, not a dropped file; exceptions are `Except.error`. -/
def generate_file (llm : Json → Except String String) (deployment_document : Json)
    (file_info : Json) : Except String (Json × String) :=
  if jIsObj file_info = false then Except.error "AttributeError"
  else
    if jHasKey deployment_document "technical_specifications" = false then
      Except.error "KeyError"
    else if jIsObj (jget deployment_document "technical_specifications" Json.null)
        = false then
      Except.error "AttributeError"
    else if jHasKey deployment_document "implementation_plan" = false then
      Except.error "KeyError"
    else if jHasKey deployment_document "file_structure" = false then
      Except.error "KeyError"
    else
      match llm file_info with
      | Except.error e => Except.error e
      | Except.ok content =>
          Except.ok (jget file_info "filename" (Json.str ""), cleanCodeBlock content)

/-- `_plan_files_node`: `deployment_document.get('file_structure', \x7b\x7d)
.get('files', [])`. -/
def plan_files (deployment_document : Json) : Json :=
  jget (jget deployment_document "file_structure" (Json.obj [])) "files" (Json.arr [])

/-- The fan-out over `files_to_generate` with fan-in of the branch results;
an exception in any branch aborts the invocation. -/
def mapFiles (llm : Json → Except String String) (doc : Json) :
    List Json → Except String (List (Json × String))
  | [] => Except.ok []
  | fi :: rest =>
      match generate_file llm doc fi with
      | Except.error e => Except.error e
      | Except.ok pair =>
          match mapFiles llm doc rest with
          | Except.error e => Except.error e
          | Except.ok pairs => Except.ok (pair :: pairs)

/-- The developer sub-graph's generation pass: plan the file list and run one
`generate_file` per entry. -/
def developer_generate_files (llm : Json → Except String String) (doc : Json) :
    Except String (List (Json × String)) :=
  match plan_files doc with
  | Json.arr fileInfos => mapFiles llm doc fileInfos
  | _ => Except.error "TypeError"

end AgentFlow

namespace AgentFlow

lemma generate_file_ok_spec (llm : Json → Except String String) (doc fi : Json)
    (name : Json) (code : String)
    (h : generate_file llm doc fi = Except.ok (name, code)) :
    name = jget fi "filename" (Json.str "") ∧
    ∃ content, llm fi = Except.ok content ∧ code = cleanCodeBlock content := by
  unfold generate_file at h
  split_ifs at h
  cases hl : llm fi with
  | error e => rw [hl] at h; simp at h
  | ok content =>
      rw [hl] at h
      simp only [Except.ok.injEq, Prod.mk.injEq] at h
      exact ⟨h.1.symm, content, rfl, h.2.symm⟩

lemma generate_file_error_of_llm_error (llm : Json → Except String String)
    (doc fi : Json) (e : String) (h : llm fi = Except.error e) :
    ∃ e2, generate_file llm doc fi = Except.error e2 := by
  unfold generate_file
  split_ifs
  all_goals try (exact ⟨_, rfl⟩)
  exact ⟨e, by rw [h]⟩

lemma mapFiles_ok_spec (llm : Json → Except String String) (doc : Json) :
    ∀ (l : List Json) (res : List (Json × String)),
      mapFiles llm doc l = Except.ok res →
      res.length = l.length ∧
      res.map Prod.fst = l.map (fun fi => jget fi "filename" (Json.str "")) := by
  intro l
  induction l with
  | nil =>
      intro res h
      simp only [mapFiles, Except.ok.injEq] at h
      subst h
      exact ⟨rfl, rfl⟩
  | cons fi rest ih =>
      intro res h
      simp only [mapFiles] at h
      cases hg : generate_file llm doc fi with
      | error e => rw [hg] at h; simp at h
      | ok pair =>
          rw [hg] at h
          cases hr : mapFiles llm doc rest with
          | error e => rw [hr] at h; simp at h
          | ok pairs =>
              rw [hr] at h
              simp only [Except.ok.injEq] at h
              subst h
              obtain ⟨hl, hm⟩ := ih pairs hr
              rcases pair with ⟨name, code⟩
              obtain ⟨hn, -⟩ := generate_file_ok_spec llm doc fi name code hg
              refine ⟨by simp [hl], ?_⟩
              simp only [List.map_cons, hm, hn]

lemma mapFiles_error_of_mem (llm : Json → Except String String) (doc : Json) :
    ∀ (l : List Json) (fi : Json) (e : String), fi ∈ l →
      llm fi = Except.error e →
      ∃ e2, mapFiles llm doc l = Except.error e2 := by
  intro l
  induction l with
  | nil => intro fi e hmem; exact absurd hmem (List.not_mem_nil fi)
  | cons hd rest ih =>
      intro fi e hmem hl
      simp only [mapFiles]
      cases hg : generate_file llm doc hd with
      | error e2 => exact ⟨e2, rfl⟩
      | ok pair =>
          rcases List.mem_cons.mp hmem with rfl | hmem2
          · obtain ⟨e2, hge⟩ := generate_file_error_of_llm_error llm doc fi e hl
            rw [hge] at hg
            cases hg
          · obtain ⟨e2, hre⟩ := ih fi e hmem2 hl
            rw [hre]
            exact ⟨e2, rfl⟩

/-- Claim C7: on the live generation path (`developer_graph.py`), if
generation reports success the returned map has exactly one entry per entry
of `file_structure.files` — so at least as many entries, with the filenames
taken verbatim (case-preserved) from the listed `filename` values, even when
the generated code is empty — and an LLM failure on any listed file aborts
the node with an error rather than producing a smaller successful result. -/
theorem developer_generate_files_complete_map :
    (∀ (llm : Json → Except String String) (doc : Json) (fileInfos : List Json)
        (results : List (Json × String)),
        plan_files doc = Json.arr fileInfos →
        developer_generate_files llm doc = Except.ok results →
        results.length = fileInfos.length ∧
        results.map Prod.fst
          = fileInfos.map (fun fi => jget fi "filename" (Json.str ""))) ∧
    (∀ (llm : Json → Except String String) (doc fi : Json) (name : Json)
        (code : String),
        generate_file llm doc fi = Except.ok (name, code) →
        name = jget fi "filename" (Json.str "") ∧
        ∃ content, llm fi = Except.ok content ∧ code = cleanCodeBlock content) ∧
    (∀ (llm : Json → Except String String) (doc : Json) (fileInfos : List Json)
        (fi : Json) (e : String),
        plan_files doc = Json.arr fileInfos →
        fi ∈ fileInfos →
        llm fi = Except.error e →
        ∃ e2, developer_generate_files llm doc = Except.error e2) := by
  refine ⟨?_, ?_, ?_⟩
  · intro llm doc fileInfos results hplan h
    unfold developer_generate_files at h
    rw [hplan] at h
    exact mapFiles_ok_spec llm doc fileInfos results h
  · intro llm doc fi name code h
    exact generate_file_ok_spec llm doc fi name code h
  · intro llm doc fileInfos fi e hplan hmem hl
    unfold developer_generate_files
    rw [hplan]
    exact mapFiles_error_of_mem llm doc fileInfos fi e hmem hl

/-- Witness for C7 at a concrete document with two declared files: a model
answering "x" everywhere yields a two-entry map with the verbatim filenames;
a file whose model answer is empty still yields its entry (with empty code);
a model failure on a listed file makes the whole pass fail. -/
theorem developer_generate_files_complete_map_witness :
    (([(Json.str "a.py", cleanCodeBlock "x"), (Json.str "b.py", cleanCodeBlock "x")] :
        List (Json × String)).length
      = ([Json.obj [("filename", Json.str "a.py")],
          Json.obj [("filename", Json.str "b.py")]] : List Json).length ∧
     ([(Json.str "a.py", cleanCodeBlock "x"), (Json.str "b.py", cleanCodeBlock "x")] :
        List (Json × String)).map Prod.fst
      = ([Json.obj [("filename", Json.str "a.py")],
          Json.obj [("filename", Json.str "b.py")]] : List Json).map
          (fun fi => jget fi "filename" (Json.str ""))) ∧
    (Json.str "a.py" = jget (Json.obj [("filename", Json.str "a.py")])
        "filename" (Json.str "") ∧
      ∃ content, (fun _ : Json => Except.ok (ε := String) "") (Json.obj
          [("filename", Json.str "a.py")]) = Except.ok content ∧
        ("" : String) = cleanCodeBlock content) ∧
    (∃ e2, developer_generate_files (fun _ => Except.error "boom")
        (Json.obj [("technical_specifications", Json.obj []),
                   ("implementation_plan", Json.obj []),
                   ("file_structure", Json.obj [("files", Json.arr
                     [Json.obj [("filename", Json.str "a.py")]])])])
      = Except.error e2) := by
  refine ⟨developer_generate_files_complete_map.1
            (fun _ => Except.ok "x")
            (Json.obj [("technical_specifications", Json.obj []),
                       ("implementation_plan", Json.obj []),
                       ("file_structure", Json.obj [("files", Json.arr
                         [Json.obj [("filename", Json.str "a.py")],
                          Json.obj [("filename", Json.str "b.py")]])])])
            [Json.obj [("filename", Json.str "a.py")],
             Json.obj [("filename", Json.str "b.py")]]
            [(Json.str "a.py", cleanCodeBlock "x"), (Json.str "b.py", cleanCodeBlock "x")]
            (by rfl) (by rfl),
          developer_generate_files_complete_map.2.1
            (fun _ => Except.ok "")
            (Json.obj [("technical_specifications", Json.obj []),
                       ("implementation_plan", Json.obj []),
                       ("file_structure", Json.obj [])])
            (Json.obj [("filename", Json.str "a.py")])
            (Json.str "a.py") "" (by rfl),
          developer_generate_files_complete_map.2.2
            (fun _ => Except.error "boom")
            (Json.obj [("technical_specifications", Json.obj []),
                       ("implementation_plan", Json.obj []),
                       ("file_structure", Json.obj [("files", Json.arr
                         [Json.obj [("filename", Json.str "a.py")]])])])
            [Json.obj [("filename", Json.str "a.py")]]
            (Json.obj [("filename", Json.str "a.py")]) "boom"
            (by rfl) (by simp) (by rfl)⟩

end AgentFlow
